import Mathlib

/-!
Verification development for the poplu-city simulation engine.

The definitions below are a shallow embedding of the simulation core:
the tile grid and its generation (src/App.tsx, createInitialGrid), the
economic tick (src/App.tsx, the setStats interval body), the click
handler (src/App.tsx, handleTileClick), the building table
(the constants module, BUILDINGS), the day/night accumulator, and the
three agent-movement systems (src/components/IsoMap.tsx: TrafficSystem,
TrainSystem, PopulationSystem).

Modelling conventions:
* JS numbers holding integer amounts (money, population, costs) become ℤ;
  tile land prices become ℕ (they are generated nonnegative and the code
  tests them for JS falsiness, i.e. zero).
* The grid, an array of arrays indexed grid[y][x], becomes a total
  function ℕ → ℕ → Tile read as g y x; all source accesses are bounds
  checked before use, so the values outside [0,25)² are never consulted.
  Copy-on-write row duplication plus single-cell assignment becomes a
  pointwise functional update (setTile).
* Math.random() values are threaded as explicit parameters: the per-tile
  price variance becomes a function argument of grid generation, and the
  agent systems take a stream of rationals in [0,1).
* Math.sin and Math.sqrt in grid generation are modelled by Real.sin and
  Real.sqrt (the only non-executable corner, faithful to the formulas).
* Floating point accumulators (timeOfDay, train progress, car progress)
  are modelled over ℚ with exact arithmetic.
-/

namespace Poplu

/-- BuildingType from src/types (the enumerated building/tool variants). -/
inductive BuildingType where
  | none
  | road
  | residential
  | commercial
  | industrial
  | park
  | rail
  | trainStation
  | bridge
  | land
deriving DecidableEq, Repr

/-- BuildingConfig from src/types: the static per-building table entry. -/
structure BuildingConfig where
  type : BuildingType
  cost : ℤ
  name : String
  popGen : ℤ
  incomeGen : ℤ
deriving DecidableEq, Repr

/-- GRID_SIZE from the constants module. -/
def GRID_SIZE : ℕ := 25

/-- TICK_RATE_MS from the constants module. -/
def TICK_RATE_MS : ℕ := 2000

/-- INITIAL_MONEY from the constants module. -/
def INITIAL_MONEY : ℤ := 50000

/-- LAND_COST from the constants module (base cost fallback). -/
def LAND_COST : ℕ := 500

/-- LAND_SELL from the constants module (unused by the logic). -/
def LAND_SELL : ℕ := 250

/-- BUILDINGS from the constants module: the static building table. -/
def BUILDINGS : BuildingType → BuildingConfig
  | .none => ⟨.none, 0, "Bulldoze", 0, 0⟩
  | .road => ⟨.road, 10, "Road", 0, 0⟩
  | .residential => ⟨.residential, 100, "House", 5, 0⟩
  | .commercial => ⟨.commercial, 200, "Shop", 0, 15⟩
  | .industrial => ⟨.industrial, 400, "Factory", 0, 40⟩
  | .park => ⟨.park, 50, "Park", 1, 0⟩
  | .rail => ⟨.rail, 150, "Rail", 0, 0⟩
  | .trainStation => ⟨.trainStation, 5000, "Station", 10, 200⟩
  | .bridge => ⟨.bridge, 1000, "Bridge", 0, 0⟩
  | .land => ⟨.land, 500, "Real Estate", 0, 0⟩

/-- TileData from src/types. The x/y fields of the source are its grid
coordinates; here a tile is identified by its position in the grid
function, so they are omitted. -/
structure Tile where
  buildingType : BuildingType
  owned : Bool
  isWater : Bool
  isRail : Bool
  landPrice : ℕ
deriving DecidableEq, Repr

/-- Grid from src/types: indexed as g y x, mirroring grid[y][x]. -/
def Grid : Type := ℕ → ℕ → Tile

/-- CityStats from src/types. -/
structure CityStats where
  money : ℤ
  population : ℤ
  day : ℕ
deriving DecidableEq, Repr

/-- GridModel single-tile mutator: the copy-on-write row duplication plus
newGrid[y][x] = tile of the source, as a pointwise update. -/
def setTile (g : Grid) (x y : ℕ) (t : Tile) : Grid :=
  fun y' x' => if y' = y ∧ x' = x then t else g y' x'

/-- Sum of a per-tile value over the whole grid, mirroring
gridRef.current.flat().forEach accumulation (addition is commutative, so
the traversal order of the source is irrelevant). -/
def sumGrid {M : Type} [AddCommMonoid M] (f : Tile → M) (g : Grid) : M :=
  ∑ y ∈ Finset.range GRID_SIZE, ∑ x ∈ Finset.range GRID_SIZE, f (g y x)

/-- Per-tile income term of the tick scan (App.tsx lines 116-127): owned
tiles with a building that is not None and whose config type is not Land
contribute config.incomeGen. -/
def incomeOf (t : Tile) : ℤ :=
  if t.buildingType ≠ BuildingType.none ∧ t.owned ∧
      (BUILDINGS t.buildingType).type ≠ BuildingType.land then
    (BUILDINGS t.buildingType).incomeGen
  else 0

/-- Per-tile population-growth term of the tick scan (same guard). -/
def popOf (t : Tile) : ℤ :=
  if t.buildingType ≠ BuildingType.none ∧ t.owned ∧
      (BUILDINGS t.buildingType).type ≠ BuildingType.land then
    (BUILDINGS t.buildingType).popGen
  else 0

/-- Per-tile contribution to buildingCounts[Residential] (same guard,
restricted to the Residential key). -/
def resOf (t : Tile) : ℕ :=
  if t.buildingType ≠ BuildingType.none ∧ t.owned ∧
      (BUILDINGS t.buildingType).type ≠ BuildingType.land ∧
      t.buildingType = BuildingType.residential then 1
  else 0

/-- dailyIncome accumulated by one tick scan. -/
def dailyIncome (g : Grid) : ℤ := sumGrid incomeOf g

/-- dailyPopGrowth accumulated by one tick scan. -/
def dailyPopGrowth (g : Grid) : ℤ := sumGrid popOf g

/-- buildingCounts[BuildingType.Residential] || 0 of one tick scan. -/
def resCount (g : Grid) : ℕ := sumGrid resOf g

/-- The setStats body of one economic tick (App.tsx lines 129-146):
maxPop = resCount * 50; population grows by dailyPopGrowth, capped at
maxPop; if resCount = 0 and the previous population is positive the
population instead becomes max 0 (population - 5); money grows by
dailyIncome; day increments when isNewDay. -/
def tickStats (g : Grid) (prev : CityStats) (isNewDay : Bool) : CityStats :=
  { money := prev.money + dailyIncome g
    population :=
      if resCount g = 0 ∧ 0 < prev.population then
        max 0 (prev.population - 5)
      else if prev.population + dailyPopGrowth g > (resCount g : ℤ) * 50 then
        (resCount g : ℤ) * 50
      else prev.population + dailyPopGrowth g
    day := if isNewDay then prev.day + 1 else prev.day }

/-- The hasOwnedNeighbor test of the Land-tool buy branch (App.tsx lines
198-202). The source relies on short-circuiting to avoid the index -1;
here the guards make the out-of-range reads irrelevant (ℕ subtraction
clamps, and a false first conjunct forces the conjunction false). -/
def hasOwnedNeighbor (g : Grid) (x y : ℕ) : Bool :=
  (decide (0 < x) && (g y (x - 1)).owned) ||
  (decide (x < GRID_SIZE - 1) && (g y (x + 1)).owned) ||
  (decide (0 < y) && (g (y - 1) x).owned) ||
  (decide (y < GRID_SIZE - 1) && (g (y + 1) x).owned)

/-- The sale price of an owned plot (the source's
Math.floor((currentTile.landPrice || LAND_COST) * 0.5): a zero price is
JS-falsy and falls back to LAND_COST; halving a nonnegative integer and
flooring is ℕ division). -/
def landSellPrice (t : Tile) : ℕ :=
  (if t.landPrice = 0 then LAND_COST else t.landPrice) / 2

/-- The purchase cost of an unowned plot (currentTile.landPrice ||
LAND_COST). -/
def landBuyCost (t : Tile) : ℕ :=
  if t.landPrice = 0 then LAND_COST else t.landPrice

/-- handleTileClick (App.tsx lines 162-282) with the game started: the
pure state transformer of one click, returning the (grid, stats) pair.
The source's currentTile local is written out as g y x; news-feed
messages are presentation-only and are not modelled. -/
def applyClick (g : Grid) (st : CityStats) (tool : BuildingType) (x y : ℕ) :
    Grid × CityStats :=
  if GRID_SIZE ≤ x ∨ GRID_SIZE ≤ y then (g, st)
  else if tool = BuildingType.land then
    if (g y x).isWater then (g, st)
    else if (g y x).owned then
      if (g y x).buildingType = BuildingType.none then
        (setTile g x y { g y x with owned := false },
         { st with money := st.money + (landSellPrice (g y x) : ℤ) })
      else (g, st)
    else
      if hasOwnedNeighbor g x y then
        if (landBuyCost (g y x) : ℤ) ≤ st.money then
          (setTile g x y { g y x with owned := true },
           { st with money := st.money - (landBuyCost (g y x) : ℤ) })
        else (g, st)
      else (g, st)
  else if (g y x).owned = false then (g, st)
  else if (g y x).isWater ∧ tool ≠ BuildingType.rail ∧ tool ≠ BuildingType.bridge then
    (g, st)
  else if (g y x).isWater = false ∧ tool = BuildingType.bridge then (g, st)
  else if tool = BuildingType.none then
    if (g y x).buildingType ≠ BuildingType.none then
      if (5 : ℤ) ≤ st.money then
        (setTile g x y { g y x with buildingType := BuildingType.none, isRail := false },
         { st with money := st.money - 5 })
      else (g, st)
    else (g, st)
  else
    if (g y x).buildingType = BuildingType.none ∨
        (tool = BuildingType.rail ∧ (g y x).isWater) ∨
        (tool = BuildingType.bridge ∧ (g y x).isWater) then
      if (BUILDINGS tool).cost ≤ st.money then
        (if tool = BuildingType.rail then
            setTile g x y { g y x with buildingType := BuildingType.rail, isRail := true }
          else
            setTile g x y { g y x with buildingType := tool },
         { st with money := st.money - (BUILDINGS tool).cost })
      else (g, st)
    else (g, st)

/-- createInitialGrid (App.tsx lines 16-49). The per-tile Math.random()
price variance is threaded as the argument variance (the source scales
it into [0,5000)); river and distance terms keep the exact real-number
formulas via Real.sin and Real.sqrt. For integer x and integer riverY,
the source test Math.abs(x - riverY) < 1.5 is the integer test
|x - riverY| ≤ 1 (lemma abs_int_lt_three_halves below). -/
noncomputable def createInitialGrid (variance : ℕ → ℕ → ℕ) : Grid :=
  fun y x =>
    { buildingType := BuildingType.none
      owned := decide (|(x : ℤ) - (GRID_SIZE : ℤ) / 2| ≤ 2 ∧
                       |(y : ℤ) - (GRID_SIZE : ℤ) / 2| ≤ 2)
      isWater := decide (|(x : ℤ) -
        ⌊(((GRID_SIZE : ℤ) / 2 : ℤ) : ℝ) + Real.sin ((y : ℝ) * 0.4) * 2.5⌋| ≤ 1)
      isRail := false
      landPrice := 5000 + variance y x +
        (⌊Real.sqrt (((x : ℝ) - (((GRID_SIZE : ℤ) / 2 : ℤ) : ℝ)) ^ 2 +
            ((y : ℝ) - (((GRID_SIZE : ℤ) / 2 : ℤ) : ℝ)) ^ 2) * 500⌋).toNat }

/-- The whole mutable simulation state read by the timers: grid and stats
refs plus the tickCounter ref. -/
structure SimState where
  grid : Grid
  stats : CityStats
  tickCount : ℕ

/-- One firing of the 2000 ms economic interval (App.tsx lines 106-151):
tickCounter increments, isNewDay is tickCounter % 10 === 0, and setStats
applies the tick computation. -/
def tickSim (s : SimState) : SimState :=
  let c := s.tickCount + 1
  { grid := s.grid
    stats := tickStats s.grid s.stats (decide (c % 10 = 0))
    tickCount := c }

/-- One call of handleTileClick, leaving the tick counter alone. -/
def clickSim (tool : BuildingType) (x y : ℕ) (s : SimState) : SimState :=
  let r := applyClick s.grid s.stats tool x y
  { grid := r.1, stats := r.2, tickCount := s.tickCount }

/-- An interleaving step of the started game: either the economic timer
fires or the player clicks a tile with some tool. -/
inductive Op where
  | tick
  | click (tool : BuildingType) (x y : ℕ)

/-- Run a sequence of interleaved operations. -/
def runOps (ops : List Op) (s : SimState) : SimState :=
  ops.foldl (fun s op => match op with
    | Op.tick => tickSim s
    | Op.click tool x y => clickSim tool x y s) s

/-- The initial simulation state (App.tsx lines 55-56): the generated
grid, INITIAL_MONEY, zero population, day 1, tick counter 0. -/
noncomputable def initSim (variance : ℕ → ℕ → ℕ) : SimState :=
  { grid := createInitialGrid variance
    stats := { money := INITIAL_MONEY, population := 0, day := 1 }
    tickCount := 0 }

/-- A city state is reachable when some choice of generation randomness
and some interleaving of economic ticks and clicks produces it. -/
def Reachable (s : SimState) : Prop :=
  ∃ variance ops, s = runOps ops (initSim variance)

/-- DayNightClock: one firing of the 200 ms interval
(App.tsx lines 102-104), setTimeOfDay(prev => (prev + 0.001) % 1),
over exact rationals. For the values reached from 0 the JS remainder
equals the fractional part. -/
def todStep (t : ℚ) : ℚ := Int.fract (t + 1 / 1000)

/-! ### TrainSystem (IsoMap.tsx lines 401-484) -/

/-- The sort key of the rail-tile ordering: the comparator
(a,b) => (a.x - b.x) + (a.y - b.y) * 0.1 orders tiles by x + 0.1 * y. -/
def railKey (t : ℕ × ℕ) : ℚ := (t.1 : ℚ) + (t.2 : ℚ) * (1 / 10)

/-- progress % (totalLen * 2) of the train frame update, where totalLen is
the rail-tile count. The train progress is a nonnegative accumulator, and
for a nonnegative dividend the JS remainder is the floor remainder. -/
def trainRaw (count : ℕ) (progress : ℚ) : ℚ :=
  progress - (2 * (count : ℚ)) * ⌊progress / (2 * (count : ℚ))⌋

/-- The folded position of the train frame update:
pos = rawPos > totalLen ? totalLen * 2 - rawPos : rawPos. -/
def trainPosQ (count : ℕ) (progress : ℚ) : ℚ :=
  let raw := trainRaw count progress
  if raw > (count : ℚ) then 2 * (count : ℚ) - raw else raw

/-- The return-leg test of the train frame update: the heading angle is
increased by pi exactly when rawPos > totalLen. -/
def trainReversed (count : ℕ) (progress : ℚ) : Bool :=
  decide (trainRaw count progress > (count : ℚ))

/-- idx = Math.floor(pos). -/
def trainIdx (count : ℕ) (progress : ℚ) : ℕ :=
  (⌊trainPosQ count progress⌋).toNat

/-- nextIdx = Math.min(idx + 1, totalLen - 1). -/
def trainNextIdx (count : ℕ) (progress : ℚ) : ℕ :=
  min (trainIdx count progress + 1) (count - 1)

/-- Modelled from the spec (claim C7's wording, for comparison with the
code): a triangle-wave fold of the progress over [0, 2 * (count - 1)],
the interval the specification names. -/
def specTrainPos (count : ℕ) (progress : ℚ) : ℚ :=
  let L : ℚ := ((count - 1 : ℕ) : ℚ)
  let raw := progress - (2 * L) * ⌊progress / (2 * L)⌋
  if raw > L then 2 * L - raw else raw

/-! ### Render and per-frame guards of the three systems -/

/-- carCount = Math.min(roadTiles.length, 30) of TrafficSystem. -/
def carCountOf (roadCount : ℕ) : ℕ := min roadCount 30

/-- TrafficSystem renders null exactly when roadTiles.length < 2
(IsoMap.tsx line 392); this is the negation (true = renders). -/
def trafficRenders (roadCount : ℕ) : Bool := !(decide (roadCount < 2))

/-- TrafficSystem's useFrame body runs unless roadTiles.length < 2 or the
car state buffer is empty (IsoMap.tsx line 319). -/
def trafficFrameActive (roadCount stateLen : ℕ) : Bool :=
  !(decide (roadCount < 2) || decide (stateLen = 0))

/-- TrainSystem renders null exactly when railTiles.length === 0
(IsoMap.tsx line 455); this is the negation. -/
def trainRenders (railCount : ℕ) : Bool := !(decide (railCount = 0))

/-- TrainSystem's useFrame body runs unless railTiles.length < 2
(IsoMap.tsx line 420). -/
def trainFrameActive (railCount : ℕ) : Bool := !(decide (railCount < 2))

/-- agentCount = Math.min(Math.floor(population / 2), 300) of
PopulationSystem (IsoMap.tsx line 489). -/
def popAgentCount (population : ℕ) : ℕ := min (population / 2) 300

/-- Length of the pedestrian state buffer after the seeding effect
(IsoMap.tsx lines 506-535): the effect returns early when agentCount = 0
or walkableTiles is empty, leaving the initial empty buffer. -/
def popSeedLen (agentCount walkableCount : ℕ) : ℕ :=
  if agentCount = 0 ∨ walkableCount = 0 then 0 else agentCount * 6

/-- PopulationSystem renders null exactly when agentCount === 0
(IsoMap.tsx line 591); this is the negation. -/
def popRenders (agentCount : ℕ) : Bool := !(decide (agentCount = 0))

/-- PopulationSystem's useFrame body runs unless agentCount = 0 or the
agent state buffer is empty (IsoMap.tsx line 538). -/
def popFrameActive (agentCount stateLen : ℕ) : Bool :=
  !(decide (agentCount = 0) || decide (stateLen = 0))

/-! ### TrafficSystem car kinematics (IsoMap.tsx lines 318-390) -/

/-- One car's slice of the Float32Array state: current tile, target tile,
progress and speed. The stored coordinates are always road-tile indices. -/
structure Car where
  curX : ℕ
  curY : ℕ
  tarX : ℕ
  tarY : ℕ
  progress : ℚ
  speed : ℚ
deriving DecidableEq, Repr

/-- Math.floor(r * len) for one Math.random() draw r. -/
def pickIdx (len : ℕ) (r : ℚ) : ℕ := (⌊r * (len : ℚ)⌋).toNat

/-- list[Math.floor(Math.random() * list.length)], with out-of-range
access surfacing as none (the JS undefined). -/
def randPick {α : Type} (l : List α) (r : ℚ) : Option α :=
  l.get? (pickIdx l.length r)

/-- The orthogonal-neighbor filter of the car update (IsoMap.tsx lines
337-340): road tiles at Manhattan distance 1 from (cx, cy). -/
def carNeighbors (roads : List (ℕ × ℕ)) (cx cy : ℕ) : List (ℕ × ℕ) :=
  roads.filter (fun t =>
    decide ((|(t.1 : ℤ) - (cx : ℤ)| = 1 ∧ t.2 = cy) ∨
            (|(t.2 : ℤ) - (cy : ℤ)| = 1 ∧ t.1 = cx)))

/-- The valid list the car picks its next target from: when more than
one neighbor exists the filter drops neighbors at the pre-frame current
position (the not-yet-written-back array slots c.curX/c.curY); with one
neighbor the filter is skipped. -/
def carCandidates (roads : List (ℕ × ℕ)) (c : Car) : List (ℕ × ℕ) :=
  if (carNeighbors roads c.tarX c.tarY).length > 1 then
    (carNeighbors roads c.tarX c.tarY).filter (fun n =>
      decide (|(n.1 : ℚ) - (c.curX : ℚ)| > 1 / 10 ∨
              |(n.2 : ℚ) - (c.curY : ℚ)| > 1 / 10))
  else carNeighbors roads c.tarX c.tarY

/-- One car's per-frame update (IsoMap.tsx lines 321-364), parametrized
by the Math.random() draw r used if a choice is made this frame. Every
list access of the source goes through an Option so that an out-of-range
index (a JS crash) surfaces as none; when progress reaches 1 the car
snaps to its target, picks a next target among valid/neighbors, or
teleports to a random road tile when no neighbor exists. -/
def carStep (roads : List (ℕ × ℕ)) (r : ℚ) (c : Car) : Option Car :=
  if 1 ≤ c.progress + c.speed then
    if (carNeighbors roads c.tarX c.tarY).length > 0 then
      match (if (carCandidates roads c).length > 0 then
          randPick (carCandidates roads c) r
        else (carNeighbors roads c.tarX c.tarY).get? 0) with
      | some next => some { c with
          curX := c.tarX
          curY := c.tarY
          tarX := next.1
          tarY := next.2
          progress := 0 }
      | none => none
    else
      match randPick roads r with
      | some rnd => some { c with
          curX := rnd.1
          curY := rnd.2
          tarX := rnd.1
          tarY := rnd.2
          progress := 0 }
      | none => none
  else
    some { c with progress := c.progress + c.speed }

/-- Iterate the per-frame update n frames, drawing rands 0, rands 1, ...;
none propagates (a crash on some frame). -/
def carIter (roads : List (ℕ × ℕ)) (rands : ℕ → ℚ) : ℕ → Car → Option Car
  | 0, c => some c
  | n + 1, c =>
    match carStep roads (rands n) c with
    | some c' => carIter roads rands n c'
    | none => none

/-! ### Predicates and concrete fixtures used by the claims -/

/-- The rail consistency property of a single tile: isRail only on Rail. -/
def tileInv (t : Tile) : Prop :=
  t.isRail = true → t.buildingType = BuildingType.rail

instance (t : Tile) : Decidable (tileInv t) := by
  unfold tileInv; infer_instance

/-- The rail consistency property over every in-bounds tile of a grid. -/
def invAll (g : Grid) : Prop :=
  ∀ y < GRID_SIZE, ∀ x < GRID_SIZE, tileInv (g y x)

instance (g : Grid) : Decidable (invAll g) := by
  unfold invAll; infer_instance

/-- A plain unowned dry empty tile, used to build concrete grids. -/
def emptyTile : Tile :=
  { buildingType := BuildingType.none, owned := false, isWater := false
    isRail := false, landPrice := 500 }

/-- A concrete grid of unowned empty tiles. -/
def emptyGrid : Grid := fun _ _ => emptyTile

/-- Concrete fixture for the land round trip: tile (0,0) is owned, tile
(1,0) is an unowned dry empty plot priced 101 next to it. -/
def c4Grid : Grid := fun y x =>
  if y = 0 ∧ x = 0 then { emptyTile with owned := true }
  else if y = 0 ∧ x = 1 then { emptyTile with landPrice := 101 }
  else emptyTile

/-- Concrete fixture for the rail consistency claim: tile (0,0) is an
owned water tile already carrying Rail (exactly what placing the Rail
tool on owned water produces); every other tile is plain. -/
def c2Grid : Grid := fun y x =>
  if y = 0 ∧ x = 0 then
    { buildingType := BuildingType.rail, owned := true, isWater := true
      isRail := true, landPrice := 500 }
  else emptyTile

/-- A concrete all-owned dry grid (used to exercise successful clicks). -/
def ownedGrid : Grid := fun _ _ => { emptyTile with owned := true }

/-- The zero draw for the generation randomness: Math.random() = 0. -/
def v0 : ℕ → ℕ → ℕ := fun _ _ => 0

/-- The initial grid of the zero-randomness run. -/
noncomputable def G0 : Grid := createInitialGrid v0

/-- G0 after placing a house on the owned dry tile (14,12). -/
noncomputable def G1 : Grid :=
  setTile G0 14 12 { G0 12 14 with buildingType := BuildingType.residential }

/-- G1 after bulldozing that same tile again. -/
noncomputable def G2 : Grid :=
  setTile G1 14 12
    { G1 12 14 with buildingType := BuildingType.none, isRail := false }

/-- The operation sequence of the population-cap counterexample: build a
house, let two ticks raise the population to 10, bulldoze the house. -/
def cexOps : List Op :=
  [Op.click BuildingType.residential 14 12, Op.tick, Op.tick,
   Op.click BuildingType.none 14 12]

/-! ### Helper lemmas about the grid scan and the tile mutator -/

/-- Justification for the integer form of the river-width test used in
createInitialGrid: for an integer difference a, the real comparison
|a| < 1.5 coincides with |a| ≤ 1. -/
theorem abs_int_lt_three_halves (a : ℤ) : |(a : ℝ)| < 1.5 ↔ |a| ≤ 1 := by
  constructor
  · intro h
    have h2 : |(a : ℝ)| < 2 := by norm_num at h ⊢; linarith
    have : |a| < 2 := by exact_mod_cast h2
    omega
  · intro h
    have h1 : |(a : ℝ)| ≤ 1 := by exact_mod_cast h
    norm_num
    linarith

theorem setTile_same (g : Grid) (x y : ℕ) (t : Tile) :
    setTile g x y t y x = t := by
  simp [setTile]

theorem setTile_other (g : Grid) (x y : ℕ) (t : Tile) (x' y' : ℕ)
    (h : ¬(y' = y ∧ x' = x)) : setTile g x y t y' x' = g y' x' := by
  simp only [setTile, if_neg h]

theorem sumGrid_eq_zero {M : Type} [AddCommMonoid M] {f : Tile → M} {g : Grid}
    (h : ∀ y x, y < GRID_SIZE → x < GRID_SIZE → f (g y x) = 0) :
    sumGrid f g = 0 := by
  unfold sumGrid
  apply Finset.sum_eq_zero
  intro y hy
  apply Finset.sum_eq_zero
  intro x hx
  exact h y x (Finset.mem_range.mp hy) (Finset.mem_range.mp hx)

theorem sumGrid_single {M : Type} [AddCommMonoid M] {f : Tile → M} {g : Grid}
    (x0 y0 : ℕ) (hx : x0 < GRID_SIZE) (hy : y0 < GRID_SIZE)
    (h : ∀ y x, y < GRID_SIZE → x < GRID_SIZE → ¬(y = y0 ∧ x = x0) →
      f (g y x) = 0) :
    sumGrid f g = f (g y0 x0) := by
  unfold sumGrid
  rw [Finset.sum_eq_single y0]
  · rw [Finset.sum_eq_single x0]
    · intro x hxm hxne
      exact h y0 x hy (Finset.mem_range.mp hxm) (fun hc => hxne hc.2)
    · intro hm
      exact absurd (Finset.mem_range.mpr hx) hm
  · intro y hym hyne
    apply Finset.sum_eq_zero
    intro x hxm
    exact h y x (Finset.mem_range.mp hym) (Finset.mem_range.mp hxm)
      (fun hc => hyne hc.1)
  · intro hm
    exact absurd (Finset.mem_range.mpr hy) hm

theorem incomeOf_none {t : Tile} (h : t.buildingType = BuildingType.none) :
    incomeOf t = 0 := by
  simp [incomeOf, h]

theorem popOf_none {t : Tile} (h : t.buildingType = BuildingType.none) :
    popOf t = 0 := by
  simp [popOf, h]

theorem resOf_none {t : Tile} (h : t.buildingType = BuildingType.none) :
    resOf t = 0 := by
  simp [resOf, h]

theorem incomeGen_nonneg (b : BuildingType) : 0 ≤ (BUILDINGS b).incomeGen := by
  cases b <;> decide

theorem popGen_nonneg (b : BuildingType) : 0 ≤ (BUILDINGS b).popGen := by
  cases b <;> decide

theorem cost_nonneg (b : BuildingType) : 0 ≤ (BUILDINGS b).cost := by
  cases b <;> decide

theorem incomeOf_nonneg (t : Tile) : 0 ≤ incomeOf t := by
  unfold incomeOf
  split
  · exact incomeGen_nonneg _
  · exact le_refl 0

theorem popOf_nonneg (t : Tile) : 0 ≤ popOf t := by
  unfold popOf
  split
  · exact popGen_nonneg _
  · exact le_refl 0

theorem dailyIncome_nonneg (g : Grid) : 0 ≤ dailyIncome g := by
  unfold dailyIncome sumGrid
  apply Finset.sum_nonneg
  intro y _
  apply Finset.sum_nonneg
  intro x _
  exact incomeOf_nonneg _

theorem dailyPopGrowth_nonneg (g : Grid) : 0 ≤ dailyPopGrowth g := by
  unfold dailyPopGrowth sumGrid
  apply Finset.sum_nonneg
  intro y _
  apply Finset.sum_nonneg
  intro x _
  exact popOf_nonneg _

/-! ### Branch evaluations of applyClick -/

theorem applyClick_place {g : Grid} {st : CityStats} {tool : BuildingType}
    {x y : ℕ} (hx : x < GRID_SIZE) (hy : y < GRID_SIZE)
    (hl : tool ≠ BuildingType.land) (hn : tool ≠ BuildingType.none)
    (hr : tool ≠ BuildingType.rail) (hbrg : tool ≠ BuildingType.bridge)
    (ho : (g y x).owned = true) (hw : (g y x).isWater = false)
    (hb : (g y x).buildingType = BuildingType.none)
    (hm : (BUILDINGS tool).cost ≤ st.money) :
    applyClick g st tool x y =
      (setTile g x y { g y x with buildingType := tool },
       { st with money := st.money - (BUILDINGS tool).cost }) := by
  unfold applyClick
  have hbnd : ¬(GRID_SIZE ≤ x ∨ GRID_SIZE ≤ y) := by omega
  simp [hbnd, hl, hn, hr, hbrg, ho, hw, hb, hm]

theorem applyClick_bulldoze {g : Grid} {st : CityStats} {x y : ℕ}
    (hx : x < GRID_SIZE) (hy : y < GRID_SIZE)
    (ho : (g y x).owned = true) (hw : (g y x).isWater = false)
    (hb : (g y x).buildingType ≠ BuildingType.none)
    (hm : (5 : ℤ) ≤ st.money) :
    applyClick g st BuildingType.none x y =
      (setTile g x y { g y x with buildingType := BuildingType.none, isRail := false },
       { st with money := st.money - 5 }) := by
  unfold applyClick
  have hbnd : ¬(GRID_SIZE ≤ x ∨ GRID_SIZE ≤ y) := by omega
  simp [hbnd, ho, hw, hb, hm]

theorem applyClick_land_buy {g : Grid} {st : CityStats} {x y : ℕ}
    (hx : x < GRID_SIZE) (hy : y < GRID_SIZE)
    (hw : (g y x).isWater = false) (ho : (g y x).owned = false)
    (hp : (g y x).landPrice ≠ 0)
    (hnb : hasOwnedNeighbor g x y = true)
    (hm : ((g y x).landPrice : ℤ) ≤ st.money) :
    applyClick g st BuildingType.land x y =
      (setTile g x y { g y x with owned := true },
       { st with money := st.money - ((g y x).landPrice : ℤ) }) := by
  unfold applyClick
  have hbnd : ¬(GRID_SIZE ≤ x ∨ GRID_SIZE ≤ y) := by omega
  simp [hbnd, hw, ho, hp, hnb, hm, landBuyCost]

theorem applyClick_land_sell {g : Grid} {st : CityStats} {x y : ℕ}
    (hx : x < GRID_SIZE) (hy : y < GRID_SIZE)
    (hw : (g y x).isWater = false) (ho : (g y x).owned = true)
    (hb : (g y x).buildingType = BuildingType.none)
    (hp : (g y x).landPrice ≠ 0) :
    applyClick g st BuildingType.land x y =
      (setTile g x y { g y x with owned := false },
       { st with money := st.money + (((g y x).landPrice / 2 : ℕ) : ℤ) }) := by
  unfold applyClick
  have hbnd : ¬(GRID_SIZE ≤ x ∨ GRID_SIZE ≤ y) := by omega
  simp [hbnd, hw, ho, hb, hp, landSellPrice]

set_option maxHeartbeats 1000000 in
theorem applyClick_money_nonneg (g : Grid) (st : CityStats)
    (tool : BuildingType) (x y : ℕ) (h : 0 ≤ st.money) :
    0 ≤ (applyClick g st tool x y).2.money := by
  have hc := cost_nonneg tool
  simp only [applyClick]
  split_ifs <;> simp only <;> omega

theorem resCount_emptyGrid : resCount emptyGrid = 0 :=
  sumGrid_eq_zero (fun _ _ _ _ => resOf_none rfl)

theorem dailyPopGrowth_emptyGrid : dailyPopGrowth emptyGrid = 0 :=
  sumGrid_eq_zero (fun _ _ _ _ => popOf_none rfl)

/-! ### Claim C3 -/

/-- C3: in every tick with zero owned Residential tiles, a strictly
positive population becomes max 0 (population - 5) (a strict decrease),
and a zero population stays zero. -/
theorem c3_theorem (g : Grid) (st : CityStats) (d : Bool)
    (hres : resCount g = 0) :
    (0 < st.population →
      (tickStats g st d).population = max 0 (st.population - 5) ∧
      (tickStats g st d).population < st.population) ∧
    (st.population = 0 → (tickStats g st d).population = 0) := by
  have hg := dailyPopGrowth_nonneg g
  constructor
  · intro hpop
    constructor
    · simp [tickStats, hres, hpop]
    · simp [tickStats, hres, hpop]
  · intro h0
    simp [tickStats, hres, h0]
    omega

/-- C3 witness: the flight branch evaluated on a concrete empty grid with
population 7 (and, for the second conjunct, the vacuous zero case). -/
theorem c3_witness :
    (0 < (7 : ℤ) →
      (tickStats emptyGrid ⟨100, 7, 1⟩ false).population = max 0 ((7 : ℤ) - 5) ∧
      (tickStats emptyGrid ⟨100, 7, 1⟩ false).population < 7) ∧
    ((7 : ℤ) = 0 → (tickStats emptyGrid ⟨100, 7, 1⟩ false).population = 0) :=
  c3_theorem emptyGrid ⟨100, 7, 1⟩ false resCount_emptyGrid

/-! ### Claim C5 -/

/-- C5: any tool other than the Land tool clicked on an in-bounds unowned
tile is rejected before any other check: the grid and the stats (money
included) are returned unchanged. -/
theorem c5_theorem (g : Grid) (st : CityStats) (tool : BuildingType)
    (x y : ℕ) (hx : x < GRID_SIZE) (hy : y < GRID_SIZE)
    (ht : tool ≠ BuildingType.land) (ho : (g y x).owned = false) :
    applyClick g st tool x y = (g, st) := by
  unfold applyClick
  have hbnd : ¬(GRID_SIZE ≤ x ∨ GRID_SIZE ≤ y) := by omega
  simp [hbnd, ht, ho]

/-- C5 witness: the Road tool on the unowned tile (3,4) of a concrete
grid is a no-op. -/
theorem c5_witness :
    applyClick emptyGrid ⟨50000, 0, 1⟩ BuildingType.road 3 4 =
      (emptyGrid, ⟨50000, 0, 1⟩) :=
  c5_theorem emptyGrid ⟨50000, 0, 1⟩ BuildingType.road 3 4
    (by decide) (by decide) (by decide) rfl

/-! ### Claim C4 -/

/-- C4: buying an empty, dry, unowned but owned-adjacent plot of price
p ≥ 1 debits p and sets owned; selling it right back credits p / 2
(floored) and clears owned; the round trip loses p - p / 2 > 0 money. -/
theorem c4_theorem (g : Grid) (st : CityStats) (x y : ℕ)
    (hx : x < GRID_SIZE) (hy : y < GRID_SIZE)
    (hw : (g y x).isWater = false)
    (hb : (g y x).buildingType = BuildingType.none)
    (ho : (g y x).owned = false)
    (hp : 1 ≤ (g y x).landPrice)
    (hnb : hasOwnedNeighbor g x y = true)
    (hm : ((g y x).landPrice : ℤ) ≤ st.money) :
    (applyClick g st BuildingType.land x y).2.money
        = st.money - ((g y x).landPrice : ℤ) ∧
    ((applyClick g st BuildingType.land x y).1 y x).owned = true ∧
    (applyClick (applyClick g st BuildingType.land x y).1
        (applyClick g st BuildingType.land x y).2
        BuildingType.land x y).2.money
      = st.money - ((g y x).landPrice : ℤ)
          + (((g y x).landPrice / 2 : ℕ) : ℤ) ∧
    ((applyClick (applyClick g st BuildingType.land x y).1
        (applyClick g st BuildingType.land x y).2
        BuildingType.land x y).1 y x).owned = false ∧
    (applyClick (applyClick g st BuildingType.land x y).1
        (applyClick g st BuildingType.land x y).2
        BuildingType.land x y).2.money < st.money := by
  have hp0 : (g y x).landPrice ≠ 0 := by omega
  have h1 := @applyClick_land_buy g st x y hx hy hw ho hp0 hnb hm
  have hsame := setTile_same g x y { g y x with owned := true }
  have hw1 : (setTile g x y { g y x with owned := true } y x).isWater = false := by
    rw [hsame]; simpa using hw
  have ho1 : (setTile g x y { g y x with owned := true } y x).owned = true := by
    rw [hsame]
  have hb1 : (setTile g x y { g y x with owned := true } y x).buildingType
      = BuildingType.none := by
    rw [hsame]; simpa using hb
  have hp1 : (setTile g x y { g y x with owned := true } y x).landPrice ≠ 0 := by
    rw [hsame]; simpa using hp0
  have hpeq : (setTile g x y { g y x with owned := true } y x).landPrice
      = (g y x).landPrice := by
    rw [hsame]
  have h2 := @applyClick_land_sell
    (setTile g x y { g y x with owned := true })
    { st with money := st.money - ((g y x).landPrice : ℤ) }
    x y hx hy hw1 ho1 hb1 hp1
  rw [h1]
  dsimp only
  rw [h2, hpeq]
  have hlt : (g y x).landPrice / 2 < (g y x).landPrice :=
    Nat.div_lt_self (by omega) (by norm_num)
  refine ⟨rfl, ho1, rfl, ?_, ?_⟩
  · simp [setTile_same]
  · dsimp only
    omega

/-- C4 witness: the round trip on the concrete plot (1,0) of c4Grid,
priced 101: buy for 101, sell back for 50, ending 51 poorer and unowned. -/
theorem c4_witness :
    (applyClick c4Grid ⟨200, 0, 1⟩ BuildingType.land 1 0).2.money
        = 200 - ((c4Grid 0 1).landPrice : ℤ) ∧
    ((applyClick c4Grid ⟨200, 0, 1⟩ BuildingType.land 1 0).1 0 1).owned = true ∧
    (applyClick (applyClick c4Grid ⟨200, 0, 1⟩ BuildingType.land 1 0).1
        (applyClick c4Grid ⟨200, 0, 1⟩ BuildingType.land 1 0).2
        BuildingType.land 1 0).2.money
      = 200 - ((c4Grid 0 1).landPrice : ℤ) + (((c4Grid 0 1).landPrice / 2 : ℕ) : ℤ) ∧
    ((applyClick (applyClick c4Grid ⟨200, 0, 1⟩ BuildingType.land 1 0).1
        (applyClick c4Grid ⟨200, 0, 1⟩ BuildingType.land 1 0).2
        BuildingType.land 1 0).1 0 1).owned = false ∧
    (applyClick (applyClick c4Grid ⟨200, 0, 1⟩ BuildingType.land 1 0).1
        (applyClick c4Grid ⟨200, 0, 1⟩ BuildingType.land 1 0).2
        BuildingType.land 1 0).2.money < 200 :=
  c4_theorem c4Grid ⟨200, 0, 1⟩ 1 0 (by decide) (by decide) rfl rfl rfl
    (by decide) (by decide) (by decide)

/-! ### Claim C6 -/

theorem fract_shift (a b : ℚ) :
    Int.fract (Int.fract a + b) = Int.fract (a + b) := by
  have h : Int.fract a + b = (a + b) + ((-⌊a⌋ : ℤ) : ℚ) := by
    rw [Int.fract]
    push_cast
    ring
  rw [h, Int.fract_add_int]

theorem todStep_iter (n : ℕ) :
    (todStep^[n]) 0 = Int.fract ((n : ℚ) / 1000) := by
  induction n with
  | zero => simp
  | succ n ih =>
    rw [Function.iterate_succ_apply', ih]
    unfold todStep
    rw [fract_shift]
    congr 1
    push_cast
    ring

/-- C6 counterexample: 200 firings of the 200 ms day/night accumulator
advance timeOfDay from 0 to 0.2, not through a full cycle; the wrap back
to 0 happens only after 1000 firings (about 200 seconds), so the claimed
about-200-firing, 40-second full cycle is false. -/
theorem c6_counterexample :
    (todStep^[200]) 0 = 1 / 5 ∧ ((1 : ℚ) / 5 ≠ 0) ∧ (todStep^[1000]) 0 = 0 := by
  refine ⟨?_, by norm_num, ?_⟩
  · rw [todStep_iter]
    norm_num
  · rw [todStep_iter]
    norm_num

/-- C6 (amended): each firing adds exactly 0.001 modulo 1.0, the value
always stays in [0, 1), and a full day/night cycle takes 1000 firings,
i.e. about 200 seconds of wall time at one firing per 200 ms. -/
theorem c6_theorem :
    (∀ t : ℚ, todStep t = t + 1 / 1000 - (⌊t + 1 / 1000⌋ : ℚ)) ∧
    (∀ t : ℚ, 0 ≤ todStep t ∧ todStep t < 1) ∧
    (todStep^[1000]) 0 = 0 :=
  ⟨fun _ => rfl,
   fun t => ⟨Int.fract_nonneg _, Int.fract_lt_one _⟩,
   by rw [todStep_iter]; norm_num⟩

/-! ### Claim C7 -/

/-- C7 counterexample: with 3 rail tiles [A,B,C] and progress 3.5 the
code folds over [0, 2 * count] = [0, 6], giving pos 2.5 with index pair
(2, 2) — the train is parked at tile C on the return leg — whereas the
claimed triangle wave over [0, 2 * (count - 1)] = [0, 4] would give
pos 0.5, between A and B; the fold point is pos = 3, past index 2. -/
theorem c7_counterexample :
    trainPosQ 3 (7 / 2) = 5 / 2 ∧ trainIdx 3 (7 / 2) = 2 ∧
    trainNextIdx 3 (7 / 2) = 2 ∧ specTrainPos 3 (7 / 2) = 1 / 2 ∧
    ((5 : ℚ) / 2 ≠ 1 / 2) := by
  have hraw : trainRaw 3 (7 / 2) = 7 / 2 := by
    unfold trainRaw
    norm_num
  have hpos : trainPosQ 3 (7 / 2) = 5 / 2 := by
    unfold trainPosQ
    rw [hraw]
    norm_num
  refine ⟨hpos, ?_, ?_, ?_, by norm_num⟩
  · unfold trainIdx
    rw [hpos]
    norm_num
    decide
  · unfold trainNextIdx trainIdx
    rw [hpos]
    norm_num
    decide
  · unfold specTrainPos
    norm_num

/-- C7 (amended): for count ≥ 2 rail tiles and nonnegative progress, the
code's fold is the triangle wave over [0, 2 * count] (not 2 * (count-1)):
rawPos stays in [0, 2 * count), pos = count - |rawPos - count|, the
heading is rotated by pi exactly on the return half rawPos > count, and
away from the measure-zero fold instant rawPos = count the floor index
stays below count while nextIdx clamps to count - 1 (so the train dwells
at the last tile for one progress unit on each bounce). -/
theorem c7_theorem (count : ℕ) (progress : ℚ) (hc : 2 ≤ count)
    (hp : 0 ≤ progress) :
    (0 ≤ trainRaw count progress ∧
      trainRaw count progress < 2 * (count : ℚ)) ∧
    trainPosQ count progress
      = (count : ℚ) - |trainRaw count progress - (count : ℚ)| ∧
    (trainReversed count progress = true ↔
      (count : ℚ) < trainRaw count progress) ∧
    (trainRaw count progress ≠ (count : ℚ) →
      trainIdx count progress < count) ∧
    trainNextIdx count progress ≤ count - 1 := by
  have h2c : (0 : ℚ) < 2 * (count : ℚ) := by
    have h2 : (2 : ℚ) ≤ (count : ℚ) := by exact_mod_cast hc
    linarith
  have hfl := Int.floor_le (progress / (2 * (count : ℚ)))
  have hfu := Int.lt_floor_add_one (progress / (2 * (count : ℚ)))
  have hraw0 : 0 ≤ trainRaw count progress := by
    unfold trainRaw
    rw [sub_nonneg]
    have h := (le_div_iff₀ h2c).mp hfl
    linarith
  have hraw1 : trainRaw count progress < 2 * (count : ℚ) := by
    unfold trainRaw
    have h := (div_lt_iff₀ h2c).mp hfu
    ring_nf at h ⊢
    linarith
  have hfold : trainPosQ count progress
      = (count : ℚ) - |trainRaw count progress - (count : ℚ)| := by
    unfold trainPosQ
    dsimp only
    split_ifs with h
    · rw [abs_of_pos (by linarith)]
      ring
    · push_neg at h
      rw [abs_of_nonpos (by linarith)]
      ring
  have hidx : trainRaw count progress ≠ (count : ℚ) →
      trainIdx count progress < count := by
    intro hne
    have hposlt : trainPosQ count progress < (count : ℚ) := by
      unfold trainPosQ
      dsimp only
      split_ifs with h
      · linarith
      · push_neg at h
        exact lt_of_le_of_ne h hne
    have hpos0 : 0 ≤ trainPosQ count progress := by
      unfold trainPosQ
      dsimp only
      split_ifs with h
      · linarith
      · exact hraw0
    unfold trainIdx
    have hfl2 : ⌊trainPosQ count progress⌋ < (count : ℤ) := by
      rw [Int.floor_lt]
      push_cast
      exact hposlt
    have hfl3 : 0 ≤ ⌊trainPosQ count progress⌋ := Int.floor_nonneg.mpr hpos0
    omega
  refine ⟨⟨hraw0, hraw1⟩, hfold, by simp [trainReversed], hidx, ?_⟩
  unfold trainNextIdx
  exact min_le_right _ _

/-- C7 witness: the amended fold facts evaluated at 4 rail tiles and
progress 5 (on the return leg: rawPos = 5 > 4). -/
theorem c7_witness :
    (0 ≤ trainRaw 4 5 ∧ trainRaw 4 5 < 2 * ((4 : ℕ) : ℚ)) ∧
    trainPosQ 4 5 = ((4 : ℕ) : ℚ) - |trainRaw 4 5 - ((4 : ℕ) : ℚ)| ∧
    (trainReversed 4 5 = true ↔ ((4 : ℕ) : ℚ) < trainRaw 4 5) ∧
    (trainRaw 4 5 ≠ ((4 : ℕ) : ℚ) → trainIdx 4 5 < 4) ∧
    trainNextIdx 4 5 ≤ 4 - 1 :=
  c7_theorem 4 5 (by norm_num) (by norm_num)

/-! ### Claim C8 -/

/-- C8 counterexample: a rail graph with exactly 1 tile has fewer than 2
tiles, yet the TrainSystem render guard only checks for emptiness, so the
(static) train is still rendered. -/
theorem c8_counterexample : trainRenders 1 = true ∧ (1 : ℕ) < 2 := by
  constructor
  · rfl
  · norm_num

/-- C8 (amended): the Vehicles system renders nothing and skips its frame
work whenever its graph has fewer than 2 tiles; the Train system skips
its frame work below 2 tiles but renders whenever the graph is nonempty
(so a 1-tile graph still renders a static train); the Pedestrian system
is guarded by its agent count, not its graph size: it renders iff the
agent count is nonzero, and with a sub-2-tile walkable set its frame work
runs exactly when there are agents and exactly 1 walkable tile. -/
theorem c8_theorem :
    (∀ r s, r < 2 → trafficRenders r = false ∧ trafficFrameActive r s = false) ∧
    (∀ r, r < 2 → trainFrameActive r = false) ∧
    trainRenders 0 = false ∧
    (∀ a w, w < 2 →
      (popFrameActive a (popSeedLen a w) = true ↔ (a ≠ 0 ∧ w = 1))) ∧
    (∀ a, popRenders a = false ↔ a = 0) := by
  refine ⟨?_, ?_, rfl, ?_, ?_⟩
  · intro r s hr
    constructor <;> simp [trafficRenders, trafficFrameActive, hr]
  · intro r hr
    simp [trainFrameActive, hr]
  · intro a w hw
    by_cases ha : a = 0 <;>
      (cases w with
        | zero => simp [popFrameActive, popSeedLen, ha]
        | succ w' =>
          have hw1 : w' = 0 := by omega
          subst hw1
          simp [popFrameActive, popSeedLen, ha])
  · intro a
    by_cases ha : a = 0 <;> simp [popRenders, ha]

/-- C8 witness: the amended guard facts at a 1-tile road graph, a 1-tile
rail graph, and 2 pedestrian agents on a single walkable tile. -/
theorem c8_witness :
    (trafficRenders 1 = false ∧ trafficFrameActive 1 0 = false) ∧
    trainFrameActive 1 = false ∧
    (popFrameActive 2 (popSeedLen 2 1) = true ↔ ((2 : ℕ) ≠ 0 ∧ (1 : ℕ) = 1)) :=
  ⟨c8_theorem.1 1 0 (by norm_num), c8_theorem.2.1 1 (by norm_num),
   c8_theorem.2.2.2.1 2 1 (by norm_num)⟩

/-! ### Claim C2 -/

theorem invAll_setTile {g : Grid} {x y : ℕ} {t' : Tile} (hinv : invAll g)
    (ht : tileInv t') : invAll (setTile g x y t') := by
  intro y' hy' x' hx'
  unfold setTile
  split
  · exact ht
  · exact hinv y' hy' x' hx'

set_option maxHeartbeats 1000000 in
/-- C2 (amended): the per-tile invariant isRail ⇒ buildingType = Rail is
preserved by every click except a Bridge placement over a tile already
carrying rail (only possible for rail laid on water), where the source
keeps isRail = true while overwriting buildingType with Bridge; and a
successful bulldoze clears buildingType and isRail atomically in the one
replaced tile. -/
theorem c2_theorem (g : Grid) (st : CityStats) (tool : BuildingType)
    (x y : ℕ) (hinv : invAll g)
    (hbr : tool = BuildingType.bridge → (g y x).isRail = false) :
    invAll (applyClick g st tool x y).1 ∧
    (tool = BuildingType.none → x < GRID_SIZE → y < GRID_SIZE →
      (g y x).owned = true → (g y x).isWater = false →
      (g y x).buildingType ≠ BuildingType.none → (5 : ℤ) ≤ st.money →
      ((applyClick g st tool x y).1) y x
        = { g y x with buildingType := BuildingType.none, isRail := false }) := by
  constructor
  · unfold applyClick
    split_ifs <;> try exact hinv
    -- remaining: land sell, land buy, bulldoze, rail placement,
    -- other placements (the last one is where Bridge needs hbr)
    · rename_i hbnd hland hw how hbn
      push_neg at hbnd
      exact invAll_setTile hinv (fun hr => hinv y hbnd.2 x hbnd.1 hr)
    · rename_i hbnd hland hw how hnb hm
      push_neg at hbnd
      exact invAll_setTile hinv (fun hr => hinv y hbnd.2 x hbnd.1 hr)
    · rename_i hbnd hland hown hw1 hw2 htool hbn hm
      exact invAll_setTile hinv (fun hr => absurd hr Bool.false_ne_true)
    · rename_i hbnd hland hown hw1 hw2 htool hcond hm hrail
      exact invAll_setTile hinv (fun _ => rfl)
    · rename_i hbnd hland hown hw1 hw2 htool hcond hm hrail
      apply invAll_setTile hinv
      intro hr
      have hr' : (g y x).isRail = true := hr
      exfalso
      push_neg at hbnd
      have hbt : (g y x).buildingType = BuildingType.rail :=
        hinv y hbnd.2 x hbnd.1 hr'
      rcases hcond with hc | hc | hc
      · rw [hbt] at hc
        exact absurd hc (by decide)
      · exact hrail hc.1
      · have hfalse := hbr hc.1
        rw [hfalse] at hr'
        exact Bool.false_ne_true hr'
  · intro htool hx hy ho hw hb hm
    subst htool
    rw [applyClick_bulldoze hx hy ho hw hb hm]
    exact setTile_same _ _ _ _

/-- C2 counterexample: c2Grid satisfies the invariant everywhere (its
one rail tile is rail-on-water, produced by a legitimate Rail placement
on owned water), yet a successful Bridge placement on that tile keeps
isRail = true while setting buildingType = Bridge, breaking the
invariant at the clicked tile. -/
theorem c2_counterexample :
    invAll c2Grid ∧
    ((applyClick c2Grid ⟨50000, 0, 1⟩ BuildingType.bridge 0 0).1 0 0).buildingType
      = BuildingType.bridge ∧
    ((applyClick c2Grid ⟨50000, 0, 1⟩ BuildingType.bridge 0 0).1 0 0).isRail
      = true ∧
    ¬ tileInv ((applyClick c2Grid ⟨50000, 0, 1⟩ BuildingType.bridge 0 0).1 0 0) :=
  ⟨by decide, by decide, by decide, by decide⟩

/-- C2 witness: the amended preservation applied at a concrete grid and
the Road tool. -/
theorem c2_witness :
    invAll (applyClick ownedGrid ⟨50000, 0, 1⟩ BuildingType.road 2 2).1 ∧
    (BuildingType.road = BuildingType.none → 2 < GRID_SIZE → 2 < GRID_SIZE →
      (ownedGrid 2 2).owned = true → (ownedGrid 2 2).isWater = false →
      (ownedGrid 2 2).buildingType ≠ BuildingType.none → (5 : ℤ) ≤ (50000 : ℤ) →
      ((applyClick ownedGrid ⟨50000, 0, 1⟩ BuildingType.road 2 2).1) 2 2
        = { ownedGrid 2 2 with buildingType := BuildingType.none, isRail := false }) :=
  c2_theorem ownedGrid ⟨50000, 0, 1⟩ BuildingType.road 2 2 (by decide) (by decide)

/-! ### Claim C9 -/

theorem pickIdx_lt {len : ℕ} (hlen : 0 < len) {r : ℚ} (h0 : 0 ≤ r)
    (h1 : r < 1) : pickIdx len r < len := by
  unfold pickIdx
  have hup : ⌊r * (len : ℚ)⌋ < (len : ℤ) := by
    rw [Int.floor_lt]
    push_cast
    have hlenq : (0 : ℚ) < (len : ℚ) := by exact_mod_cast hlen
    calc r * (len : ℚ) < 1 * (len : ℚ) := by
          exact mul_lt_mul_of_pos_right h1 hlenq
      _ = (len : ℚ) := one_mul _
  have hlo : 0 ≤ ⌊r * (len : ℚ)⌋ :=
    Int.floor_nonneg.mpr (mul_nonneg h0 (by positivity))
  omega

theorem randPick_isSome {α : Type} {l : List α} (hl : l ≠ []) {r : ℚ}
    (h0 : 0 ≤ r) (h1 : r < 1) : (randPick l r).isSome := by
  unfold randPick
  have hlen : 0 < l.length := List.length_pos.mpr hl
  rw [List.get?_eq_get (pickIdx_lt hlen h0 h1)]
  rfl

theorem randPick_mem {α : Type} {l : List α} {r : ℚ} {a : α}
    (h : randPick l r = some a) : a ∈ l :=
  List.get?_mem h

theorem carNeighbors_subset {roads : List (ℕ × ℕ)} {cx cy : ℕ} {a : ℕ × ℕ}
    (h : a ∈ carNeighbors roads cx cy) : a ∈ roads :=
  List.mem_of_mem_filter h

theorem carCandidates_subset {roads : List (ℕ × ℕ)} {c : Car} {a : ℕ × ℕ}
    (h : a ∈ carCandidates roads c) :
    a ∈ carNeighbors roads c.tarX c.tarY := by
  unfold carCandidates at h
  split_ifs at h
  · exact List.mem_of_mem_filter h
  · exact h

/-- One frame of the per-car update never gets stuck (every list access
is in range) as long as the road graph is nonempty and the random draw
is a Math.random() value in [0,1), and it keeps both the current and the
target tile inside the road graph. -/
theorem carStep_safe (roads : List (ℕ × ℕ)) (r : ℚ) (c : Car)
    (hr : roads ≠ []) (h0 : 0 ≤ r) (h1 : r < 1)
    (hcur : (c.curX, c.curY) ∈ roads) (htar : (c.tarX, c.tarY) ∈ roads) :
    ∃ c', carStep roads r c = some c' ∧
      (c'.curX, c'.curY) ∈ roads ∧ (c'.tarX, c'.tarY) ∈ roads := by
  unfold carStep
  split_ifs with hprog hnb hcand
  · -- neighbors nonempty, candidates nonempty: random candidate pick
    have hvne : carCandidates roads c ≠ [] := by
      intro hemp
      rw [hemp] at hcand
      simp at hcand
    obtain ⟨next, hnext⟩ :=
      Option.isSome_iff_exists.mp (randPick_isSome hvne h0 h1)
    rw [hnext]
    exact ⟨_, rfl, htar,
      carNeighbors_subset (carCandidates_subset (randPick_mem hnext))⟩
  · -- neighbors nonempty, candidates empty: neighbors[0]
    have hlen : 0 < (carNeighbors roads c.tarX c.tarY).length := hnb
    obtain ⟨next, hnext⟩ := Option.isSome_iff_exists.mp
      (by rw [List.get?_eq_get hlen]; rfl :
        ((carNeighbors roads c.tarX c.tarY).get? 0).isSome)
    rw [hnext]
    exact ⟨_, rfl, htar, carNeighbors_subset (List.get?_mem hnext)⟩
  · -- no neighbors: teleport to a random road tile
    obtain ⟨rnd, hrnd⟩ :=
      Option.isSome_iff_exists.mp (randPick_isSome hr h0 h1)
    rw [hrnd]
    exact ⟨_, rfl, randPick_mem hrnd, randPick_mem hrnd⟩
  · -- progress below 1: pure interpolation frame
    exact ⟨_, rfl, hcur, htar⟩

/-- C9 (amended): on a road graph of exactly two orthogonally adjacent
tiles [A, B], every frame of the car update succeeds (the no-neighbor
fallback teleports into the road list instead of throwing), and after
any number of frames the car's current and target tiles are still
members of {A, B}. The source spawns min(2, 30) = 2 such cars; each obeys
this independently. -/
theorem c9_theorem (A B : ℕ × ℕ) (rands : ℕ → ℚ) (c0 : Car) (n : ℕ)
    (hadj : |(A.1 : ℤ) - (B.1 : ℤ)| + |(A.2 : ℤ) - (B.2 : ℤ)| = 1)
    (hrand : ∀ k, 0 ≤ rands k ∧ rands k < 1)
    (hcur : (c0.curX, c0.curY) ∈ [A, B])
    (htar : (c0.tarX, c0.tarY) ∈ [A, B]) :
    ∃ c, carIter [A, B] rands n c0 = some c ∧
      (c.curX, c.curY) ∈ [A, B] ∧ (c.tarX, c.tarY) ∈ [A, B] := by
  induction n generalizing c0 with
  | zero => exact ⟨c0, rfl, hcur, htar⟩
  | succ n ih =>
    obtain ⟨c1, hstep, hc1, ht1⟩ :=
      carStep_safe [A, B] (rands n) c0 (by simp) (hrand n).1 (hrand n).2
        hcur htar
    obtain ⟨c2, hiter, hc2, ht2⟩ := ih c1 hc1 ht1
    refine ⟨c2, ?_, hc2, ht2⟩
    unfold carIter
    rw [hstep]
    exact hiter

/-- C9 witness: five frames on the concrete adjacent pair (0,0), (1,0)
with the zero random stream; the car stays on the two tiles. -/
theorem c9_witness :
    ∃ c, carIter [(0, 0), (1, 0)] (fun _ => 0) 5
        ⟨0, 0, 1, 0, 0, 1⟩ = some c ∧
      (c.curX, c.curY) ∈ [(0, 0), (1, 0)] ∧
      (c.tarX, c.tarY) ∈ [(0, 0), (1, 0)] :=
  c9_theorem (0, 0) (1, 0) (fun _ => 0) ⟨0, 0, 1, 0, 0, 1⟩ 5
    (by decide) (fun _ => ⟨le_refl 0, by norm_num⟩) (by simp) (by simp)

/-- C9 counterexample: with exactly 2 road tiles the TrafficSystem spawns
carCount = min(2, 30) = 2 vehicles, so the claim's premise of a single
vehicle is false; the confinement and no-throw properties themselves hold
for each of the two cars (amended theorem). -/
theorem c9_counterexample : carCountOf 2 = 2 ∧ (2 : ℕ) ≠ 1 :=
  ⟨rfl, by norm_num⟩

/-! ### Claim C10 -/

/-- C10: starting from the initial money of 50000, money stays
nonnegative under every interleaving of economic ticks and clicks: tick
income is a sum of nonnegative incomeGen values, land sales only credit,
and every spend path checks affordability of the full amount first. -/
theorem c10_theorem (s : SimState) (h : Reachable s) : 0 ≤ s.stats.money := by
  obtain ⟨v, ops, rfl⟩ := h
  suffices H : ∀ (ops : List Op) (s0 : SimState), 0 ≤ s0.stats.money →
      0 ≤ (runOps ops s0).stats.money by
    refine H ops _ ?_
    norm_num [initSim, INITIAL_MONEY]
  intro ops
  induction ops with
  | nil => exact fun _ h0 => h0
  | cons op rest ih =>
    intro s0 h0
    cases op with
    | tick =>
      show 0 ≤ (runOps rest (tickSim s0)).stats.money
      apply ih
      show 0 ≤ s0.stats.money + dailyIncome s0.grid
      have := dailyIncome_nonneg s0.grid
      omega
    | click tool x y =>
      show 0 ≤ (runOps rest (clickSim tool x y s0)).stats.money
      apply ih
      exact applyClick_money_nonneg _ _ _ _ _ h0

/-- C10 witness: the invariant applied to the freshly started game (the
empty operation sequence), whose money is the initial 50000. -/
theorem c10_witness : 0 ≤ (runOps [] (initSim v0)).stats.money :=
  c10_theorem _ ⟨v0, [], rfl⟩

/-! ### Claim C1 -/

/-- The sine factor of the river row at y = 12: 4.8 radians lies in
(pi, 2 pi), so its sine is nonpositive. -/
theorem sin_48_nonpos : Real.sin 4.8 ≤ 0 := by
  have hper : Real.sin (4.8 - 2 * Real.pi) = Real.sin 4.8 :=
    Real.sin_sub_two_pi 4.8
  have h1 : Real.pi < 3.15 := Real.pi_lt_d2
  have h2 : (3.14 : ℝ) < Real.pi := Real.pi_gt_d2
  have h3 : Real.sin (4.8 - 2 * Real.pi) ≤ 0 :=
    Real.sin_nonpos_of_nonnpos_of_neg_pi_le (by linarith) (by linarith)
  linarith [hper ▸ h3]

theorem createInitialGrid_buildingType (v : ℕ → ℕ → ℕ) (y x : ℕ) :
    (createInitialGrid v y x).buildingType = BuildingType.none := rfl

theorem createInitialGrid_owned_14_12 (v : ℕ → ℕ → ℕ) :
    (createInitialGrid v 12 14).owned = true := by
  unfold createInitialGrid
  rfl

/-- Tile (14, 12) of the generated grid is dry: the sine of 4.8 rad is
nonpositive, so the river column at row 12 is at most 12, two short of
column 14. -/
theorem createInitialGrid_water_14_12 (v : ℕ → ℕ → ℕ) :
    (createInitialGrid v 12 14).isWater = false := by
  unfold createInitialGrid
  rw [decide_eq_false_iff_not]
  intro habs
  have hsin : Real.sin (((12 : ℕ) : ℝ) * 0.4) ≤ 0 := by
    have h48 : ((12 : ℕ) : ℝ) * 0.4 = 4.8 := by norm_num
    rw [h48]
    exact sin_48_nonpos
  have hle : (((GRID_SIZE : ℤ) / 2 : ℤ) : ℝ) +
      Real.sin (((12 : ℕ) : ℝ) * 0.4) * 2.5 ≤ (12 : ℝ) := by
    have hc : (((GRID_SIZE : ℤ) / 2 : ℤ) : ℝ) = 12 := by
      norm_num [GRID_SIZE]
    nlinarith [hsin]
  have hfl : ⌊(((GRID_SIZE : ℤ) / 2 : ℤ) : ℝ) +
      Real.sin (((12 : ℕ) : ℝ) * 0.4) * 2.5⌋ ≤ 12 :=
    calc ⌊(((GRID_SIZE : ℤ) / 2 : ℤ) : ℝ) +
        Real.sin (((12 : ℕ) : ℝ) * 0.4) * 2.5⌋
        ≤ ⌊(12 : ℝ)⌋ := Int.floor_le_floor hle
      _ = 12 := by norm_num
  rw [abs_le] at habs
  omega

theorem G0_bt (y x : ℕ) : (G0 y x).buildingType = BuildingType.none :=
  createInitialGrid_buildingType v0 y x

theorem G0_owned : (G0 12 14).owned = true :=
  createInitialGrid_owned_14_12 v0

theorem G0_water : (G0 12 14).isWater = false :=
  createInitialGrid_water_14_12 v0

theorem G1_at :
    G1 12 14 = { G0 12 14 with buildingType := BuildingType.residential } :=
  setTile_same _ _ _ _

theorem G1_other (y x : ℕ) (h : ¬(y = 12 ∧ x = 14)) : G1 y x = G0 y x :=
  setTile_other _ _ _ _ _ _ h

theorem G1_owned : (G1 12 14).owned = true := by
  rw [G1_at]
  simpa using G0_owned

theorem G1_water : (G1 12 14).isWater = false := by
  rw [G1_at]
  simpa using G0_water

theorem G1_bt : (G1 12 14).buildingType = BuildingType.residential := by
  rw [G1_at]

theorem resCount_G1 : resCount G1 = 1 := by
  unfold resCount
  rw [sumGrid_single 14 12 (by decide) (by decide)
    (fun y x _ _ hne => by rw [G1_other y x hne]; exact resOf_none (G0_bt y x))]
  rw [G1_at]
  simp [resOf, BUILDINGS, G0_owned]

theorem dailyPopGrowth_G1 : dailyPopGrowth G1 = 5 := by
  unfold dailyPopGrowth
  rw [sumGrid_single 14 12 (by decide) (by decide)
    (fun y x _ _ hne => by rw [G1_other y x hne]; exact popOf_none (G0_bt y x))]
  rw [G1_at]
  simp [popOf, BUILDINGS, G0_owned]

theorem dailyIncome_G1 : dailyIncome G1 = 0 := by
  unfold dailyIncome
  rw [sumGrid_single 14 12 (by decide) (by decide)
    (fun y x _ _ hne => by rw [G1_other y x hne]; exact incomeOf_none (G0_bt y x))]
  rw [G1_at]
  simp [incomeOf, BUILDINGS, G0_owned]

theorem G2_bt (y x : ℕ) : (G2 y x).buildingType = BuildingType.none := by
  unfold G2
  by_cases h : y = 12 ∧ x = 14
  · obtain ⟨rfl, rfl⟩ := h
    rw [setTile_same]
  · rw [setTile_other _ _ _ _ _ _ h, G1_other y x h]
    exact G0_bt y x

theorem resCount_G2 : resCount G2 = 0 := by
  unfold resCount
  exact sumGrid_eq_zero (fun y x _ _ => resOf_none (G2_bt y x))

theorem tick_G1_first :
    tickStats G1 ⟨49900, 0, 1⟩ false = ⟨49900, 5, 1⟩ := by
  unfold tickStats
  rw [resCount_G1, dailyPopGrowth_G1, dailyIncome_G1]
  norm_num

theorem tick_G1_second :
    tickStats G1 ⟨49900, 5, 1⟩ false = ⟨49900, 10, 1⟩ := by
  unfold tickStats
  rw [resCount_G1, dailyPopGrowth_G1, dailyIncome_G1]
  norm_num

/-- Running the counterexample trace from the zero-randomness start:
place a house at (14,12), tick twice (population 5 then 10), bulldoze
the house. -/
theorem runOps_cex :
    runOps cexOps (initSim v0)
      = { grid := G2, stats := ⟨49895, 10, 1⟩, tickCount := 2 } := by
  have hstep1 : clickSim BuildingType.residential 14 12 (initSim v0)
      = { grid := G1, stats := ⟨49900, 0, 1⟩, tickCount := 0 } := by
    unfold clickSim initSim
    dsimp only
    rw [show createInitialGrid v0 = G0 from rfl]
    rw [@applyClick_place G0 ⟨INITIAL_MONEY, 0, 1⟩ BuildingType.residential
      14 12 (by decide) (by decide) (by decide) (by decide) (by decide)
      (by decide) G0_owned G0_water (G0_bt 12 14) (by decide)]
    rfl
  have hstep2 : tickSim { grid := G1, stats := ⟨49900, 0, 1⟩, tickCount := 0 }
      = { grid := G1, stats := ⟨49900, 5, 1⟩, tickCount := 1 } := by
    unfold tickSim
    dsimp only
    rw [show (decide ((0 + 1) % 10 = 0)) = false from rfl, tick_G1_first]
  have hstep3 : tickSim { grid := G1, stats := ⟨49900, 5, 1⟩, tickCount := 1 }
      = { grid := G1, stats := ⟨49900, 10, 1⟩, tickCount := 2 } := by
    unfold tickSim
    dsimp only
    rw [show (decide ((1 + 1) % 10 = 0)) = false from rfl, tick_G1_second]
  have hstep4 : clickSim BuildingType.none 14 12
      { grid := G1, stats := ⟨49900, 10, 1⟩, tickCount := 2 }
      = { grid := G2, stats := ⟨49895, 10, 1⟩, tickCount := 2 } := by
    unfold clickSim
    dsimp only
    rw [@applyClick_bulldoze G1 ⟨49900, 10, 1⟩ 14 12 (by decide) (by decide)
      G1_owned G1_water (by rw [G1_bt]; decide) (by decide)]
    rfl
  show clickSim BuildingType.none 14 12
      (tickSim (tickSim (clickSim BuildingType.residential 14 12 (initSim v0))))
    = _
  rw [hstep1, hstep2, hstep3, hstep4]

/-- C1 counterexample: the population cap is not an invariant of every
tick. From the real initial grid (any generation randomness gives the
owned dry tile (14,12)), place a house, let two ticks raise the
population to 10, bulldoze the house; the next tick counts zero owned
Residential tiles but takes the flight branch, leaving population
5 > 0 = residentialCount * 50. -/
theorem c1_counterexample :
    Reachable (runOps cexOps (initSim v0)) ∧
    (resCount (runOps cexOps (initSim v0)).grid : ℤ) * 50 <
      (tickSim (runOps cexOps (initSim v0))).stats.population := by
  refine ⟨⟨v0, cexOps, rfl⟩, ?_⟩
  rw [runOps_cex]
  have hpop : (tickSim { grid := G2, stats := ⟨49895, 10, 1⟩, tickCount := 2 }
      : SimState).stats.population = 5 := by
    unfold tickSim
    dsimp only
    simp [tickStats, resCount_G2]
  rw [hpop]
  dsimp only
  rw [resCount_G2]
  norm_num

/-- C1 (amended): the bound population ≤ residentialCount * 50 holds
after every tick whose scan counts at least one owned Residential tile,
and also when the previous population was at most 5 (the flight branch
then bottoms out at 0); it fails only for the flight ticks with zero
residences and a previous population above 5, where the new population
is the previous one minus 5. -/
theorem c1_theorem (g : Grid) (st : CityStats) (d : Bool)
    (h : resCount g ≠ 0 ∨ st.population ≤ 5) :
    (tickStats g st d).population ≤ (resCount g : ℤ) * 50 := by
  have hres : (0 : ℤ) ≤ (resCount g : ℤ) := by positivity
  unfold tickStats
  dsimp only
  split_ifs with h1 h2
  · rcases h with h | h
    · exact absurd h1.1 h
    · omega
  · omega
  · omega

/-- C1 witness: the amended bound at a concrete empty grid with a small
positive population (the flight branch lands exactly on the bound 0). -/
theorem c1_witness :
    (resCount emptyGrid ≠ 0 ∨ (3 : ℤ) ≤ 5) ∧
    (tickStats emptyGrid ⟨100, 3, 1⟩ false).population
      ≤ (resCount emptyGrid : ℤ) * 50 :=
  ⟨Or.inr (by norm_num),
   c1_theorem emptyGrid ⟨100, 3, 1⟩ false (Or.inr (by norm_num))⟩

end Poplu
